import Mathlib

/-!
Verification of the conversational content-manager bot in `server.js`.

The development shallowly embeds the Telegram-side conversation engine
(the `bot.hears`/`bot.on('message')` handlers), the session data model
(the `userStates` map entries), the persisted `Content` records, and the
`GET /api/content/:id` read handler.  JavaScript-specific behaviour that
the source relies on (`isNaN` / `parseInt` string coercions, truthiness
of `message.text`, `>=` on `NaN`/`undefined`, in-place `Array.push` on
the session's `episodes` array) is modelled explicitly.
-/

namespace SSBot

/-! ## JavaScript string-to-number semantics

`server.js` line 222 guards the episode count with
`message.text && !isNaN(message.text)` and line 223 converts it with
`parseInt(message.text)`.  `isNaN(str)` coerces via `Number(str)`
(ECMA `StringNumericLiteral` grammar: optional whitespace trimming,
empty string is 0, signed decimal with optional fraction/exponent,
`Infinity`, and unsigned `0x`/`0o`/`0b` literals), while `parseInt`
trims leading whitespace, takes an optional sign, recognises only a
`0x`/`0X` prefix, and reads the longest digit prefix, yielding NaN when
no digit is read.  NaN results are modelled as `none`. -/

def isJsWS (c : Char) : Bool :=
  c = ' ' || c = '\t' || c = '\n' || c = '\r' ||
  c = '\x0b' || c = '\x0c' || c = '\u00A0' || c = '\uFEFF' ||
  c = '\u2028' || c = '\u2029'

def jsTrim (l : List Char) : List Char :=
  ((l.dropWhile isJsWS).reverse.dropWhile isJsWS).reverse

def decDigit (c : Char) : Bool := '0' ≤ c && c ≤ '9'

def decDigits (l : List Char) : Bool := !l.isEmpty && l.all decDigit

def digitVal (c : Char) : Option Nat :=
  if decDigit c then some (c.toNat - '0'.toNat)
  else if 'a' ≤ c && c ≤ 'z' then some (c.toNat - 'a'.toNat + 10)
  else if 'A' ≤ c && c ≤ 'Z' then some (c.toNat - 'A'.toNat + 10)
  else none

def digitIn (radix : Nat) (c : Char) : Bool :=
  match digitVal c with
  | some v => v < radix
  | none => false

def dropSign (l : List Char) : List Char :=
  match l with
  | '+' :: t => t
  | '-' :: t => t
  | _ => l

/-- Mantissa of a decimal `StringNumericLiteral`: `digits`, `digits.`,
`digits.digits`, or `.digits`. -/
def mantissaOk (l : List Char) : Bool :=
  match l.splitOn '.' with
  | [a] => decDigits a
  | [a, b] => if a.isEmpty then decDigits b else decDigits a && b.all decDigit
  | _ => false

def isExpChar (c : Char) : Bool := c = 'e' || c = 'E'

/-- An unsigned decimal literal with optional exponent part. -/
def unsignedDecOk (l : List Char) : Bool :=
  match l.dropWhile (fun c => !isExpChar c) with
  | [] => mantissaOk l
  | _ :: rest => mantissaOk (l.takeWhile (fun c => !isExpChar c)) && decDigits (dropSign rest)

/-- A non-decimal radix prefix `0x`/`0o`/`0b` with its tail. -/
def radixTail (l : List Char) : Option (Nat × List Char) :=
  match l with
  | '0' :: c :: t =>
    if c = 'x' || c = 'X' then some (16, t)
    else if c = 'o' || c = 'O' then some (8, t)
    else if c = 'b' || c = 'B' then some (2, t)
    else none
  | _ => none

/-- Whether `Number(s)` is not NaN, i.e. `!isNaN(s)` on a string. -/
def jsNumeric (s : String) : Bool :=
  match jsTrim s.data with
  | [] => true
  | l =>
    match radixTail l with
    | some (radix, t) => !t.isEmpty && t.all (digitIn radix)
    | none =>
      let u := dropSign l
      u == "Infinity".data || unsignedDecOk u

/-- JavaScript `parseInt(s)` with no radix argument; `none` is NaN. -/
def jsParseInt (s : String) : Option Int :=
  let l := s.data.dropWhile isJsWS
  let sgn : Int := match l with | '-' :: _ => -1 | _ => 1
  let l1 := dropSign l
  let l2 : List Char :=
    match l1 with
    | '0' :: c :: t => if c = 'x' || c = 'X' then t else l1
    | _ => l1
  let radix : Nat :=
    match l1 with
    | '0' :: c :: _ => if c = 'x' || c = 'X' then 16 else 10
    | _ => 10
  let ds := l2.takeWhile (digitIn radix)
  if ds.isEmpty then none
  else some (sgn * ((ds.foldl (fun acc c => acc * radix + (digitVal c).getD 0) 0 : Nat) : Int))

/-- JavaScript `a >= b` where either side may be NaN or `undefined`
(`none`): any comparison against NaN/undefined is false.  This embeds
`state.currentEpisode >= state.episodeCount` at `server.js` line 256. -/
def jsGeO : Option Int → Option Int → Bool
  | some a, some b => decide (b ≤ a)
  | _, _ => false

/-- JavaScript `n + 1` on a possibly-undefined number (`undefined + 1`
is NaN, kept as `none`); embeds `state.currentEpisode + 1` (line 274). -/
def jsAddOne : Option Int → Option Int
  | some n => some (n + 1)
  | none => none

/-! ## Data model -/

/-- The `type` field of a session / `Content` record
(`enum: ['movie', 'webseries']`). -/
inductive ContentType
  | movie
  | webseries
  deriving DecidableEq, Repr

/-- The `step` tags appearing in the `switch (state.step)` of the
`bot.on('message')` handler. -/
inductive Step
  | title
  | thumbnail
  | movie_links
  | episode_count
  | episode_title
  | episode_link
  deriving DecidableEq, Repr

/-- One entry of the `episodes` array: `{episodeNumber, title,
streamingLink}`.  `episodeNumber` is `state.currentEpisode`, which is a
JS number that is `undefined` before the count step; `title` is
`state.currentEpisodeTitle`, `undefined` until set. -/
structure Episode where
  episodeNumber : Option Int
  title : Option String
  streamingLink : String
  deriving DecidableEq, Repr

/-- A `userStates` map entry.  Fields the source leaves absent on some
paths are `Option`/defaulted: the movie flow never sets `episodes` and
the series flow never sets `streamingLinks`, and the source reads them
as `state.episodes || []` resp. `state.streamingLinks || []`, so absent
arrays are modelled as `[]`.  `episodeCount` is `none` when the field is
absent or holds NaN (both behave identically in the only read, the `>=`
comparison). -/
structure Session where
  type : ContentType
  step : Step
  title : Option String
  thumbnail : Option String
  streamingLinks : List String
  episodes : List Episode
  episodeCount : Option Int
  currentEpisode : Option Int
  currentEpisodeTitle : Option String
  deriving DecidableEq, Repr

/-- A persisted `Content` document as constructed at the two
`new Content({...})` sites; array fields not passed default to `[]`
(Mongoose array default), `createdAt` is store-side and not modelled. -/
structure ContentRecord where
  type : ContentType
  title : Option String
  thumbnail : Option String
  streamingLinks : List String
  episodes : List Episode
  deriving DecidableEq, Repr

/-- An inbound Telegram message: a text message, a photo message
(carrying the outcome of the `getFile` + `downloadThumbnail` call:
`some localPath` on success, `none` when the download throws), or any
other non-text, non-photo message. -/
inductive Msg
  | text (t : String)
  | photo (download : Option String)
  | other
  deriving DecidableEq, Repr

def msgIsText : Msg → Bool
  | .text _ => true
  | _ => false

/-- The distinct `ctx.reply` call sites of the message handler, with the
interpolated data they carry. -/
inductive Reply
  | sendThumbnail
  | thumbnailError
  | sendImagePlease
  | sendLinks
  | askEpisodeCount
  | needOneLink
  | movieAdded
  | movieSaveError
  | linkAdded (count : Nat)
  | invalidEpisodeCount
  | startingEpisode1
  | sendEpisodeLink (n : Option Int)
  | seriesAdded (title : Option String) (count : Nat)
  | seriesSaveError
  | nextEpisodeTitle (n : Option Int)
  | invalidStreamingLink
  deriving DecidableEq, Repr

/-- The observable result of one run of the `bot.on('message')` handler
for one user: the user's resulting `userStates` entry (`none` = absent),
the `Content` record passed to a successful `save()` (if any), and the
reply sent (if any). -/
structure StepResult where
  session : Option Session
  persisted : Option ContentRecord
  reply : Option Reply
  deriving DecidableEq, Repr

/-! ## The conversation engine -/

/-- The `bot.on('message')` handler (`server.js` lines 144-288) for one
user, as a function of that user's current `userStates` entry, the
message, and whether a `content.save()` attempted during this turn would
succeed (`ok`).  The state guard `if (!state) return;` is the `none`
case.  Each `if (message.text)` is a JS truthiness test, false for the
empty string, modelled as `t.isEmpty` checks.  In the `episode_link` case the source pushes onto the session's
`episodes` array in place before attempting the save, so on save failure
the session retains the appended episode even though `userStates.set` is
not called. -/
def handleMessage (ok : Bool) (st : Option Session) (m : Msg) : StepResult :=
  match st with
  | none => ⟨none, none, none⟩
  | some s =>
    match s.step with
    | .title =>
      match m with
      | .text t =>
        if t.isEmpty then ⟨some s, none, none⟩
        else ⟨some { s with title := some t, step := .thumbnail }, none, some .sendThumbnail⟩
      | _ => ⟨some s, none, none⟩
    | .thumbnail =>
      match m with
      | .photo dl =>
        match dl with
        | some p =>
          ⟨some { s with
                  thumbnail := some p,
                  step := if s.type = .movie then .movie_links else .episode_count },
           none,
           some (if s.type = .movie then .sendLinks else .askEpisodeCount)⟩
        | none => ⟨some s, none, some .thumbnailError⟩
      | _ => ⟨some s, none, some .sendImagePlease⟩
    | .movie_links =>
      match m with
      | .text t =>
        if t = "/done" then
          if s.streamingLinks.length = 0 then
            ⟨some s, none, some .needOneLink⟩
          else if ok then
            ⟨none, some ⟨s.type, s.title, s.thumbnail, s.streamingLinks, []⟩,
             some .movieAdded⟩
          else
            ⟨some s, none, some .movieSaveError⟩
        else if t.isEmpty then ⟨some s, none, none⟩
        else
          ⟨some { s with streamingLinks := s.streamingLinks ++ [t] }, none,
           some (.linkAdded (s.streamingLinks.length + 1))⟩
      | _ => ⟨some s, none, none⟩
    | .episode_count =>
      match m with
      | .text t =>
        if !t.isEmpty && jsNumeric t then
          ⟨some { s with
                  episodeCount := jsParseInt t, currentEpisode := some 1,
                  step := .episode_title },
           none, some .startingEpisode1⟩
        else
          ⟨some s, none, some .invalidEpisodeCount⟩
      | _ => ⟨some s, none, some .invalidEpisodeCount⟩
    | .episode_title =>
      match m with
      | .text t =>
        if t.isEmpty then ⟨some s, none, none⟩
        else
          ⟨some { s with currentEpisodeTitle := some t, step := .episode_link }, none,
           some (.sendEpisodeLink s.currentEpisode)⟩
      | _ => ⟨some s, none, none⟩
    | .episode_link =>
      match m with
      | .text t =>
        if t.isEmpty then ⟨some s, none, some .invalidStreamingLink⟩ else
        let eps := s.episodes ++ [⟨s.currentEpisode, s.currentEpisodeTitle, t⟩]
        if jsGeO s.currentEpisode s.episodeCount then
          if ok then
            ⟨none, some ⟨s.type, s.title, s.thumbnail, [], eps⟩,
             some (.seriesAdded s.title eps.length)⟩
          else
            ⟨some { s with episodes := eps }, none, some .seriesSaveError⟩
        else
          ⟨some { s with
                  episodes := eps, currentEpisode := jsAddOne s.currentEpisode,
                  step := .episode_title },
           none, some (.nextEpisodeTitle (jsAddOne s.currentEpisode))⟩
      | _ => ⟨some s, none, some .invalidStreamingLink⟩

/-- The session created by `bot.hears('🎬 Add Movie')` (lines 80-87). -/
def freshMovieSession : Session :=
  { type := .movie, step := .title, title := none, thumbnail := none,
    streamingLinks := [], episodes := [], episodeCount := none,
    currentEpisode := none, currentEpisodeTitle := none }

/-- The session created by `bot.hears('📺 Add Web Series')` (lines 89-96). -/
def freshSeriesSession : Session :=
  { type := .webseries, step := .title, title := none, thumbnail := none,
    streamingLinks := [], episodes := [], episodeCount := none,
    currentEpisode := none, currentEpisodeTitle := none }

def listPrefix : List Char → List Char → Bool
  | [], _ => true
  | _ :: _, [] => false
  | a :: as, b :: bs => a == b && listPrefix as bs

/-- Whether a text matches the `/start` command (Telegraf `bot.start`,
which also accepts a bot-name suffix and a payload after the command). -/
def isStartCmd (t : String) : Bool :=
  t = "/start" || listPrefix "/start ".data t.data || listPrefix "/start@".data t.data

/-- Whether a message is one of the two session-creating menu buttons
(exact-match `bot.hears` triggers). -/
def isMenuSelect (m : Msg) : Bool :=
  match m with
  | .text t => t == "🎬 Add Movie" || t == "📺 Add Web Series"
  | _ => false

/-- Full per-user dispatch of one inbound update through the bot's
middleware chain, projected to session and persist effects.  Telegraf
runs the registered handlers in order — `bot.start`, the four
`bot.hears` triggers, then `bot.on('message')` — and a matched earlier
handler does not call `next()`, so a text equal to a menu button is
consumed by its `hears` handler (which overwrites the session) and never
reaches the message handler.  `View Content` / `Edit Content` and
`/start` only read the catalog and reply; they never touch `userStates`.
Replies, which only the message handler's claims need, are modelled in
`handleMessage`. -/
def handleEvent (ok : Bool) (st : Option Session) (m : Msg) :
    Option Session × Option ContentRecord :=
  match m with
  | .text t =>
    if isStartCmd t then (st, none)
    else if t = "🎬 Add Movie" then (some freshMovieSession, none)
    else if t = "📺 Add Web Series" then (some freshSeriesSession, none)
    else if t = "📋 View Content" then (st, none)
    else if t = "✏️ Edit Content" then (st, none)
    else ((handleMessage ok st m).session, (handleMessage ok st m).persisted)
  | _ => ((handleMessage ok st m).session, (handleMessage ok st m).persisted)

/-- Run a list of inbound updates for one user through the full
dispatch, collecting the records persisted along the way. -/
def runEvents : Option Session → List (Bool × Msg) → Option Session × List ContentRecord
  | st, [] => (st, [])
  | st, (ok, m) :: rest =>
    let r := handleEvent ok st m
    let tailR := runEvents r.1 rest
    (tailR.1, r.2.toList ++ tailR.2)

/-- Run a list of messages through the conversation engine
(`bot.on('message')`) only. -/
def runMsgs : Option Session → List (Bool × Msg) → Option Session × List ContentRecord
  | st, [] => (st, [])
  | st, (ok, m) :: rest =>
    let r := handleMessage ok st m
    let tailR := runMsgs r.session rest
    (tailR.1, r.persisted.toList ++ tailR.2)

/-- Per-user session states reachable from the empty state by any
sequence of inbound updates (save outcomes arbitrary). -/
inductive Reach : Option Session → Prop
  | init : Reach none
  | step (ok : Bool) (m : Msg) {st : Option Session} :
      Reach st → Reach (handleEvent ok st m).1

/-- Reachability when every attempted `content.save()` succeeds. -/
inductive ReachOK : Option Session → Prop
  | init : ReachOK none
  | step (m : Msg) {st : Option Session} :
      ReachOK st → ReachOK (handleEvent true st m).1

/-! ## The spec-side transition table (spec section 4.2) -/

/-- Modelled from the spec: the successor relation of the transition
table in spec section 4.2, projected to the `step` tag (`none` = no
session).  For each state it collects every state the table allows next,
over valid and invalid input alike, including ending the session at a
persist. -/
def specTableSucc (a b : Option Step) : Bool :=
  match a with
  | none => b == none || b == some .title
  | some .title => b == some .title || b == some .thumbnail
  | some .thumbnail =>
      b == some .thumbnail || b == some .movie_links || b == some .episode_count
  | some .movie_links => b == some .movie_links || b == none
  | some .episode_count => b == some .episode_count || b == some .episode_title
  | some .episode_title => b == some .episode_title || b == some .episode_link
  | some .episode_link => b == some .episode_link || b == some .episode_title || b == none

/-! ## Invariants of reachable sessions -/

/-- Structural invariant of reachable sessions: the `movie_links` step
belongs to the movie flow, the episode steps to the series flow, and all
steps past `thumbnail` carry a resolved thumbnail reference. -/
def BaseInv (s : Session) : Prop :=
  (s.step = .movie_links → s.type = .movie ∧ s.thumbnail.isSome = true) ∧
  (s.step = .episode_count ∨ s.step = .episode_title ∨ s.step = .episode_link →
    s.type = .webseries ∧ s.thumbnail.isSome = true)

/-- Episode numbers `1..n` as stored in an `episodes` array. -/
def epNums (n : Nat) : List (Option Int) :=
  (List.range' 1 n).map (fun (i : Nat) => some (i : Int))

lemma epNums_concat (n : Nat) :
    epNums (n + 1) = epNums n ++ [some ((n : Int) + 1)] := by
  simp [epNums, List.range'_concat]
  ring

/-- Invariant of the episode sub-loop when every save succeeds: before
the loop the `episodes` array is empty, and inside the loop with a
positive episode count `k` the counter reads `j+1 ≤ k` and the collected
episode numbers are exactly `1..j`. -/
def SeriesInv (s : Session) : Prop :=
  ((s.step = .title ∨ s.step = .thumbnail ∨ s.step = .episode_count) → s.episodes = []) ∧
  ((s.step = .episode_title ∨ s.step = .episode_link) →
    ∀ k : Int, s.episodeCount = some k → 1 ≤ k →
      ∃ jn : Nat, s.currentEpisode = some ((jn : Int) + 1) ∧ ((jn : Int) + 1 ≤ k) ∧
        s.episodes.map Episode.episodeNumber = epNums jn)

/-! ## Case-analysis lemmas for the dispatch -/

lemma handleEvent_split (ok : Bool) (st : Option Session) (m : Msg) :
    handleEvent ok st m = (st, none) ∨
    (isMenuSelect m = true ∧ handleEvent ok st m = (some freshMovieSession, none)) ∨
    (isMenuSelect m = true ∧ handleEvent ok st m = (some freshSeriesSession, none)) ∨
    handleEvent ok st m =
      ((handleMessage ok st m).session, (handleMessage ok st m).persisted) := by
  cases m with
  | text t =>
    by_cases h1 : isStartCmd t = true
    · left; simp [handleEvent, h1]
    · by_cases h2 : t = "🎬 Add Movie"
      · right; left
        constructor
        · simp [isMenuSelect, h2]
        · simp only [handleEvent]
          rw [if_neg (by simp [h1]), if_pos h2]
      · by_cases h3 : t = "📺 Add Web Series"
        · right; right; left
          constructor
          · simp [isMenuSelect, h3]
          · simp only [handleEvent]
            rw [if_neg (by simp [h1]), if_neg h2, if_pos h3]
        · by_cases h4 : t = "📋 View Content"
          · left
            simp only [handleEvent]
            rw [if_neg (by simp [h1]), if_neg h2, if_neg h3, if_pos h4]
          · by_cases h5 : t = "✏️ Edit Content"
            · left
              simp only [handleEvent]
              rw [if_neg (by simp [h1]), if_neg h2, if_neg h3, if_neg h4, if_pos h5]
            · right; right; right
              simp only [handleEvent]
              rw [if_neg (by simp [h1]), if_neg h2, if_neg h3, if_neg h4, if_neg h5]
  | photo dl => right; right; right; rfl
  | other => right; right; right; rfl

/-- Each turn either persists nothing or deletes the session. -/
lemma persist_split (ok : Bool) (st : Option Session) (m : Msg) :
    (handleMessage ok st m).persisted = none ∨ (handleMessage ok st m).session = none := by
  rcases st with _ | s
  · left; rfl
  obtain ⟨ty, stp, ti, th, sl, eps, ec, ce, cet⟩ := s
  cases m with
  | text t =>
    cases stp <;> simp only [handleMessage] <;>
      first
        | exact Or.inl trivial
        | (split_ifs <;> simp)
  | photo dl => cases stp <;> cases dl <;> simp [handleMessage]
  | other => cases stp <;> simp [handleMessage]

/-- A turn that persists a record always deletes the session. -/
lemma persist_deletes (ok : Bool) (st : Option Session) (m : Msg) (r : ContentRecord)
    (h : (handleMessage ok st m).persisted = some r) :
    (handleMessage ok st m).session = none := by
  rcases persist_split ok st m with h0 | h0
  · rw [h0] at h; exact absurd h (by simp)
  · exact h0

/-- Every record handed to a successful `save()` comes from one of the
two persist points, with full characterisation of the turn. -/
lemma persist_cases (ok : Bool) (s : Session) (m : Msg) (r : ContentRecord)
    (h : (handleMessage ok (some s) m).persisted = some r) :
    ok = true ∧
    ∃ t, m = .text t ∧
      ((s.step = .movie_links ∧ t = "/done" ∧ s.streamingLinks ≠ [] ∧
         r = ⟨s.type, s.title, s.thumbnail, s.streamingLinks, []⟩) ∨
       (s.step = .episode_link ∧ jsGeO s.currentEpisode s.episodeCount = true ∧
         r = ⟨s.type, s.title, s.thumbnail, [],
              s.episodes ++ [⟨s.currentEpisode, s.currentEpisodeTitle, t⟩]⟩)) := by
  obtain ⟨ty, stp, ti, th, sl, eps, ec, ce, cet⟩ := s
  cases m with
  | text t =>
    cases stp <;> simp only [handleMessage] at h <;> try exact Option.noConfusion h
    · split_ifs at h
    · split_ifs at h with h1 h2 h3
      dsimp only at h
      simp only [Option.some.injEq] at h
      exact ⟨h3, t, rfl, Or.inl ⟨rfl, h1, by simpa using h2, h.symm⟩⟩
    · split_ifs at h
    · split_ifs at h
    · split_ifs at h with h1 h2 h3
      dsimp only at h
      simp only [Option.some.injEq] at h
      exact ⟨h3, t, rfl, Or.inr ⟨rfl, h2, h.symm⟩⟩
  | photo dl =>
    cases stp <;> cases dl <;> simp [handleMessage] at h
  | other =>
    cases stp <;> simp [handleMessage] at h

/-! ## Preservation of the invariants -/

lemma baseInv_handleMessage (ok : Bool) (m : Msg) (s s' : Session) (h : BaseInv s)
    (hs' : (handleMessage ok (some s) m).session = some s') : BaseInv s' := by
  obtain ⟨ty, stp, ti, th, sl, eps, ec, ce, cet⟩ := s
  obtain ⟨h1, h2⟩ := h
  cases m with
  | text t =>
    cases stp <;> simp only [handleMessage] at hs'
    · split_ifs at hs' <;> simp only [Option.some.injEq] at hs' <;> subst hs'
      · exact ⟨h1, h2⟩
      · simp [BaseInv]
    · simp only [Option.some.injEq] at hs'
      subst hs'
      exact ⟨h1, h2⟩
    · split_ifs at hs' <;> simp only [Option.some.injEq] at hs' <;> subst hs' <;>
        exact ⟨fun _ => h1 rfl, h2⟩
    · split_ifs at hs' <;> simp only [Option.some.injEq] at hs' <;> subst hs' <;>
        exact ⟨fun hc => absurd hc (by simp), fun _ => h2 (by simp)⟩
    · split_ifs at hs' <;> simp only [Option.some.injEq] at hs' <;> subst hs' <;>
        exact ⟨fun hc => absurd hc (by simp), fun _ => h2 (by simp)⟩
    · split_ifs at hs' <;> simp only [Option.some.injEq] at hs' <;> subst hs' <;>
        exact ⟨fun hc => absurd hc (by simp), fun _ => h2 (by simp)⟩
  | photo dl =>
    cases stp <;> cases dl <;> simp only [handleMessage] at hs' <;>
      simp only [Option.some.injEq] at hs'
    case thumbnail.some p =>
      split_ifs at hs' with hty <;> subst hs'
      · exact ⟨fun _ => ⟨hty, rfl⟩, fun hc => absurd hc (by simp)⟩
      · refine ⟨fun hc => absurd hc (by simp), fun _ => ⟨?_, rfl⟩⟩
        cases ty
        · exact absurd rfl hty
        · rfl
    all_goals (subst hs'; exact ⟨h1, h2⟩)
  | other =>
    cases stp <;> simp only [handleMessage] at hs' <;>
      simp only [Option.some.injEq] at hs' <;> subst hs' <;> exact ⟨h1, h2⟩

lemma baseInv_handleEvent (ok : Bool) (m : Msg) (st : Option Session)
    (h : ∀ u, st = some u → BaseInv u) :
    ∀ s', (handleEvent ok st m).1 = some s' → BaseInv s' := by
  intro s' hs'
  rcases handleEvent_split ok st m with he | ⟨_, he⟩ | ⟨_, he⟩ | he <;> rw [he] at hs'
  · exact h s' hs'
  · obtain rfl : freshMovieSession = s' := by simpa using hs'
    simp [BaseInv, freshMovieSession]
  · obtain rfl : freshSeriesSession = s' := by simpa using hs'
    simp [BaseInv, freshSeriesSession]
  · rcases st with _ | u
    · exact absurd hs' (by simp [handleMessage])
    · exact baseInv_handleMessage ok m u s' (h u rfl) hs'

lemma reach_baseInv {st : Option Session} (h : Reach st) :
    ∀ s, st = some s → BaseInv s := by
  induction h with
  | init => intro s hs; cases hs
  | step ok m hprev ih => exact fun s hs => baseInv_handleEvent ok m _ ih s hs

lemma reachOK_reach {st : Option Session} (h : ReachOK st) : Reach st := by
  induction h with
  | init => exact Reach.init
  | step m hprev ih => exact Reach.step true m ih

lemma seriesInv_handleMessage (m : Msg) (s s' : Session) (h : SeriesInv s)
    (hs' : (handleMessage true (some s) m).session = some s') : SeriesInv s' := by
  obtain ⟨ty, stp, ti, th, sl, eps, ec, ce, cet⟩ := s
  obtain ⟨h1, h2⟩ := h
  cases m with
  | text t =>
    cases stp <;> simp only [handleMessage] at hs'
    · -- title: accepted or (empty text) silently ignored
      split_ifs at hs' <;> simp only [Option.some.injEq] at hs' <;> subst hs' <;>
        exact ⟨fun _ => h1 (Or.inl rfl), fun hc => absurd hc (by simp)⟩
    · -- thumbnail: text is ignored
      simp only [Option.some.injEq] at hs'
      subst hs'
      exact ⟨h1, h2⟩
    · -- movie_links
      split_ifs at hs' <;> simp only [Option.some.injEq] at hs' <;> subst hs' <;>
        exact ⟨fun hc => absurd hc (by simp), fun hc => absurd hc (by simp)⟩
    · -- episode_count
      split_ifs at hs' with hg <;> simp only [Option.some.injEq] at hs' <;> subst hs'
      · refine ⟨fun hc => absurd hc (by simp), fun _ k hk hk1 => ⟨0, ?_, ?_, ?_⟩⟩
        · norm_num
        · simpa using hk1
        · rw [h1 (by simp)]
          simp [epNums]
      · exact ⟨fun _ => h1 (by simp), fun hc => absurd hc (by simp)⟩
    · -- episode_title: accepted or (empty text) silently ignored
      split_ifs at hs' <;> simp only [Option.some.injEq] at hs' <;> subst hs' <;>
        exact ⟨fun hc => absurd hc (by simp), fun _ => h2 (Or.inl rfl)⟩
    · -- episode_link
      split_ifs at hs' with hemp hge <;> simp only [Option.some.injEq] at hs' <;> subst hs'
      · exact ⟨fun hc => absurd hc (by simp), h2⟩
      refine ⟨fun hc => absurd hc (by simp), fun _ k hk hk1 => ?_⟩
      obtain ⟨jn, hce, hle, hmap⟩ := h2 (Or.inr rfl) k hk hk1
      dsimp only at hce hmap hk
      have hlt : (jn : Int) + 1 < k := by
        rcases lt_or_le ((jn : Int) + 1) k with hlt | hge2
        · exact hlt
        · exfalso
          apply hge
          rw [hce, hk]
          simp [jsGeO]
          omega
      refine ⟨jn + 1, ?_, ?_, ?_⟩
      · rw [hce]
        simp [jsAddOne]
      · push_cast
        omega
      · simp only [List.map_append, hmap, List.map_cons, List.map_nil]
        rw [hce, epNums_concat]
  | photo dl =>
    cases stp <;> cases dl <;> simp only [handleMessage] at hs' <;>
      simp only [Option.some.injEq] at hs'
    case thumbnail.some p =>
      split_ifs at hs' <;> subst hs'
      · exact ⟨fun hc => absurd hc (by simp), fun hc => absurd hc (by simp)⟩
      · exact ⟨fun _ => h1 (Or.inr (Or.inl rfl)), fun hc => absurd hc (by simp)⟩
    all_goals (subst hs'; exact ⟨h1, h2⟩)
  | other =>
    cases stp <;> simp only [handleMessage] at hs' <;>
      simp only [Option.some.injEq] at hs' <;> subst hs' <;> exact ⟨h1, h2⟩

lemma seriesInv_handleEvent (m : Msg) (st : Option Session)
    (h : ∀ u, st = some u → SeriesInv u) :
    ∀ s', (handleEvent true st m).1 = some s' → SeriesInv s' := by
  intro s' hs'
  rcases handleEvent_split true st m with he | ⟨_, he⟩ | ⟨_, he⟩ | he <;> rw [he] at hs'
  · exact h s' hs'
  · obtain rfl : freshMovieSession = s' := by simpa using hs'
    exact ⟨fun _ => rfl, fun hc => absurd hc (by simp [freshMovieSession])⟩
  · obtain rfl : freshSeriesSession = s' := by simpa using hs'
    exact ⟨fun _ => rfl, fun hc => absurd hc (by simp [freshSeriesSession])⟩
  · rcases st with _ | u
    · exact absurd hs' (by simp [handleMessage])
    · exact seriesInv_handleMessage m u s' (h u rfl) hs'

lemma reachOK_seriesInv {st : Option Session} (h : ReachOK st) :
    ∀ s, st = some s → SeriesInv s := by
  induction h with
  | init => intro s hs; cases hs
  | step m hprev ih => exact fun s hs => seriesInv_handleEvent m _ ih s hs

/-! ## The stuck episode loop (NaN episode count) -/

lemma jsGeO_none (x : Option Int) : jsGeO x none = false := by
  cases x <;> rfl

/-- A session inside the episode sub-loop whose `episodeCount` holds
NaN (or is absent): the persist condition can never become true. -/
def Stuck (s : Session) : Prop :=
  s.episodeCount = none ∧ (s.step = .episode_title ∨ s.step = .episode_link)

lemma stuck_step (ok : Bool) (m : Msg) (s : Session) (h : Stuck s) :
    (handleMessage ok (some s) m).persisted = none ∧
    ∃ s', (handleMessage ok (some s) m).session = some s' ∧ Stuck s' := by
  obtain ⟨ty, stp, ti, th, sl, eps, ec, ce, cet⟩ := s
  obtain ⟨hec, hstp⟩ := h
  dsimp only at hec hstp
  subst hec
  rcases hstp with rfl | rfl <;> cases m with
  | text t => cases ht : t.isEmpty <;> simp [handleMessage, jsGeO_none, Stuck, ht]
  | photo dl => simp [handleMessage, Stuck]
  | other => simp [handleMessage, Stuck]

lemma runMsgs_stuck (evs : List (Bool × Msg)) (s : Session) (h : Stuck s) :
    (runMsgs (some s) evs).2 = [] ∧
    ∃ s', (runMsgs (some s) evs).1 = some s' ∧ Stuck s' := by
  induction evs generalizing s with
  | nil => exact ⟨rfl, s, rfl, h⟩
  | cons e rest ih =>
    obtain ⟨ok, m⟩ := e
    obtain ⟨hp, s1, hs1, hst1⟩ := stuck_step ok m s h
    obtain ⟨hrest, s2, hs2, hst2⟩ := ih s1 hst1
    constructor
    · simp [runMsgs, hp, hs1, hrest]
    · exact ⟨s2, by simp [runMsgs, hs1, hs2], hst2⟩

/-! ## The read API -/

/-- Outcome of `Content.findById(id)` at the store: a matching document,
a resolved `null` when a well-formed id matches no document, or a
rejected promise (for instance the `CastError` a malformed id raises). -/
inductive FindByIdOutcome
  | found (r : ContentRecord)
  | missing
  | failure (msg : String)
  deriving DecidableEq, Repr

/-- An HTTP response body sent by the handler: `res.json(record)`,
`res.json(null)`, or the `{error: message}` object of the catch. -/
inductive ApiBody
  | jsonRecord (r : ContentRecord)
  | jsonNull
  | errorBody (msg : String)
  deriving DecidableEq, Repr

structure ApiResponse where
  status : Nat
  body : ApiBody
  deriving DecidableEq, Repr

/-- The `GET /api/content/:id` handler (`server.js` lines 333-340) as a
function of the `findById` outcome: `res.json(content)` under the
default status 200 (also when `content` is `null`), and
`res.status(500).json({error: error.message})` in the catch. -/
def getContentById : FindByIdOutcome → ApiResponse
  | .found r => ⟨200, .jsonRecord r⟩
  | .missing => ⟨200, .jsonNull⟩
  | .failure e => ⟨500, .errorBody e⟩

def bodyIsRecord : ApiBody → Bool
  | .jsonRecord _ => true
  | _ => false

def bodyIsError : ApiBody → Bool
  | .errorBody _ => true
  | _ => false

/-! ## Concrete inputs for counterexamples and witnesses -/

/-- The series flow fed episode count "0": the guard accepts it, the
first episode is collected, and `1 >= 0` persists immediately. -/
def seriesZeroTrace : List (Bool × Msg) :=
  [(true, .text "📺 Add Web Series"), (true, .text "S"),
   (true, .photo (some "/thumbnails/t.jpg")),
   (true, .text "0"), (true, .text "Ep1"), (true, .text "L1")]

/-- The first four updates of `seriesZeroTrace`, ending right after the
episode count "0" is accepted. -/
def seriesZeroPrefix : List (Bool × Msg) := seriesZeroTrace.take 4

/-- A movie flow brought to the `movie_links` step. -/
def movieMenuTrace : List (Bool × Msg) :=
  [(true, .text "🎬 Add Movie"), (true, .text "T"),
   (true, .photo (some "/thumbnails/a.jpg")), (true, .text "http://a")]

/-- The session produced by `movieMenuTrace`: a movie session at
`movie_links` with one collected link. -/
def sampleMovieLinks : Session :=
  { type := .movie, step := .movie_links, title := some "T",
    thumbnail := some "/thumbnails/a.jpg", streamingLinks := ["http://a"],
    episodes := [], episodeCount := none, currentEpisode := none,
    currentEpisodeTitle := none }

/-- A movie session at `movie_links` with no collected link yet. -/
def sampleMovieNoLinks : Session :=
  { type := .movie, step := .movie_links, title := some "T",
    thumbnail := some "/thumbnails/a.jpg", streamingLinks := [],
    episodes := [], episodeCount := none, currentEpisode := none,
    currentEpisodeTitle := none }

/-- A series session awaiting its episode count. -/
def sampleCount : Session :=
  { type := .webseries, step := .episode_count, title := some "S",
    thumbnail := some "/thumbnails/t.jpg", streamingLinks := [],
    episodes := [], episodeCount := none, currentEpisode := none,
    currentEpisodeTitle := none }

/-- A series session at the final `episode_link` step of a one-episode
series. -/
def sampleFinalLink : Session :=
  { type := .webseries, step := .episode_link, title := some "S",
    thumbnail := some "/thumbnails/t.jpg", streamingLinks := [],
    episodes := [], episodeCount := some 1, currentEpisode := some 1,
    currentEpisodeTitle := some "E1" }

lemma reach_of_eq {a b : Option Session} (h : Reach a) (ok : Bool) (m : Msg)
    (he : (handleEvent ok a m).1 = b) : Reach b :=
  he ▸ Reach.step ok m h

lemma reachOK_of_eq {a b : Option Session} (h : ReachOK a) (m : Msg)
    (he : (handleEvent true a m).1 = b) : ReachOK b :=
  he ▸ ReachOK.step m h

lemma sampleMovieLinks_reach : Reach (some sampleMovieLinks) := by
  have h1 : Reach (some freshMovieSession) :=
    reach_of_eq Reach.init true (.text "🎬 Add Movie") (by decide)
  have h2 : Reach (some ⟨.movie, .thumbnail, some "T", none, [], [], none, none, none⟩) :=
    reach_of_eq h1 true (.text "T") (by decide)
  have h3 : Reach (some ⟨.movie, .movie_links, some "T", some "/thumbnails/a.jpg",
      [], [], none, none, none⟩) :=
    reach_of_eq h2 true (.photo (some "/thumbnails/a.jpg")) (by decide)
  exact reach_of_eq h3 true (.text "http://a") (by decide)

lemma sampleFinalLink_reachOK : ReachOK (some sampleFinalLink) := by
  have h1 : ReachOK (some freshSeriesSession) :=
    reachOK_of_eq ReachOK.init (.text "📺 Add Web Series") (by decide)
  have h2 : ReachOK (some ⟨.webseries, .thumbnail, some "S", none, [], [], none, none, none⟩) :=
    reachOK_of_eq h1 (.text "S") (by decide)
  have h3 : ReachOK (some ⟨.webseries, .episode_count, some "S", some "/thumbnails/t.jpg",
      [], [], none, none, none⟩) :=
    reachOK_of_eq h2 (.photo (some "/thumbnails/t.jpg")) (by decide)
  have h4 : ReachOK (some ⟨.webseries, .episode_title, some "S", some "/thumbnails/t.jpg",
      [], [], some 1, some 1, none⟩) :=
    reachOK_of_eq h3 (.text "1") (by decide)
  exact reachOK_of_eq h4 (.text "E1") (by decide)

/-! ## Claims -/

/-- C1, counterexample: the claim that every persisted series record has
`episodes.length` equal to the session's `episodeCount` with numbers
`1..episodeCount`, the sub-loop running exactly `episodeCount` times,
fails on the concrete run with episode count "0": the session holds
`episodeCount = 0` after the count step, yet the persisted record has
one episode (numbered 1), the sub-loop having run once. -/
theorem C1_counterexample :
    (runEvents none seriesZeroPrefix).1.map Session.episodeCount = some (some 0) ∧
    (runEvents none seriesZeroTrace).2.map (fun r => r.episodes.length) = [1] ∧
    (runEvents none seriesZeroTrace).2.map
        (fun r => r.episodes.map Episode.episodeNumber) = [[some 1]] ∧
    (1 : Int) ≠ 0 := by
  refine ⟨by decide, by decide, by decide, by decide⟩

/-- C1, amended: when the session's `episodeCount` is a positive integer
`k` and every attempted insert succeeded (so no failed-save retry ever
duplicated an episode), every series record persisted from a reachable
session carries episode numbers exactly `1..k` in ascending order, so
its `episodes` length is `k` and the episode sub-loop ran exactly `k`
times. -/
theorem C1_amended (s : Session) (m : Msg) (k : Int) (r : ContentRecord)
    (hr : ReachOK (some s))
    (hk : s.episodeCount = some k) (hk1 : 1 ≤ k)
    (hp : (handleEvent true (some s) m).2 = some r)
    (ht : r.type = .webseries) :
    r.episodes.map Episode.episodeNumber = epNums k.toNat ∧
    r.episodes.length = k.toNat := by
  rcases handleEvent_split true (some s) m with he | ⟨-, he⟩ | ⟨-, he⟩ | he <;>
    rw [he] at hp
  · exact absurd hp (by simp)
  · exact absurd hp (by simp)
  · exact absurd hp (by simp)
  · obtain ⟨-, t, -, hcase⟩ := persist_cases true s m r hp
    rcases hcase with ⟨hstep, -, -, hrec⟩ | ⟨hstep, hge, hrec⟩
    · obtain ⟨hb1, -⟩ := reach_baseInv (reachOK_reach hr) s rfl
      obtain ⟨hty, -⟩ := hb1 hstep
      rw [hrec] at ht
      dsimp only at ht
      rw [hty] at ht
      cases ht
    · obtain ⟨-, h2⟩ := reachOK_seriesInv hr s rfl
      obtain ⟨jn, hce, hle, hmap⟩ := h2 (Or.inr hstep) k hk hk1
      rw [hce, hk] at hge
      simp only [jsGeO, decide_eq_true_eq] at hge
      have hkj : k = (jn : Int) + 1 := le_antisymm hge hle
      have hlen : s.episodes.length = jn := by
        have hl := congrArg List.length hmap
        simp only [epNums, List.length_map, List.length_range'] at hl
        exact hl
      rw [hrec]
      dsimp only
      constructor
      · rw [List.map_append, hmap, hce]
        simp only [List.map_cons, List.map_nil]
        rw [← epNums_concat]
        congr 1
        omega
      · rw [List.length_append, hlen]
        simp only [List.length_cons, List.length_nil]
        omega

/-- C1, amended, witness: the one-episode series run. -/
theorem C1_amended_witness :
    ([(⟨some 1, some "E1", "L1"⟩ : Episode)]).map Episode.episodeNumber
        = epNums (1 : Int).toNat ∧
    ([(⟨some 1, some "E1", "L1"⟩ : Episode)]).length = (1 : Int).toNat := by
  have hp : (handleEvent true (some sampleFinalLink) (Msg.text "L1")).2 =
      some ⟨.webseries, some "S", some "/thumbnails/t.jpg", [],
            [⟨some 1, some "E1", "L1"⟩]⟩ := by decide
  exact C1_amended sampleFinalLink (.text "L1") 1 _ sampleFinalLink_reachOK
    rfl (by decide) hp rfl

/-- C2, counterexample: at `episode_count` the input "0" is accepted —
the step advances to `episode_title` and `episodeCount` becomes 0 — even
though 0 is not a positive integer, refuting "accepted iff it parses as
a positive integer". -/
theorem C2_counterexample :
    (handleMessage true (some sampleCount) (.text "0")).session.map Session.step
        = some .episode_title ∧
    (handleMessage true (some sampleCount) (.text "0")).session.map Session.episodeCount
        = some (some 0) ∧
    jsParseInt "0" = some 0 ∧ ¬ (1 ≤ (0 : Int)) := by
  refine ⟨by decide, by decide, by decide, by decide⟩

/-- C2, amended: in state `episode_count` a text input is accepted iff
it is non-empty and numeric under JavaScript `Number` coercion (the
`message.text && !isNaN(message.text)` guard) — a superset of the
positive integers that also admits "0", negatives, fractions, and
whitespace-only strings; on acceptance `episodeCount` is set to
`parseInt(text)` (possibly NaN), `currentEpisode` to 1, and the step
becomes `episode_title`; on any other input the session is unchanged and
the engine reprompts. -/
theorem C2_amended (s : Session) (ok : Bool) (hs : s.step = .episode_count) :
    (∀ t : String, t.isEmpty = false → jsNumeric t = true →
       handleMessage ok (some s) (.text t) =
         ⟨some { s with
                 episodeCount := jsParseInt t, currentEpisode := some 1,
                 step := .episode_title }, none, some .startingEpisode1⟩) ∧
    (∀ t : String, t.isEmpty = true ∨ jsNumeric t = false →
       handleMessage ok (some s) (.text t) = ⟨some s, none, some .invalidEpisodeCount⟩) ∧
    (∀ m : Msg, msgIsText m = false →
       handleMessage ok (some s) m = ⟨some s, none, some .invalidEpisodeCount⟩) ∧
    (∀ t : String,
       (handleMessage ok (some s) (.text t)).session.map Session.step
           = some .episode_title ↔
         (t.isEmpty = false ∧ jsNumeric t = true)) := by
  obtain ⟨ty, stp, ti, th, sl, eps, ec, ce, cet⟩ := s
  dsimp only at hs
  subst hs
  refine ⟨?_, ?_, ?_, ?_⟩
  · intro t ht hn
    simp [handleMessage, ht, hn]
  · intro t ht
    rcases ht with ht | ht <;> simp [handleMessage, ht]
  · intro m hm
    cases m with
    | text t => cases hm
    | photo dl => rfl
    | other => rfl
  · intro t
    cases ht : t.isEmpty <;> cases hn : jsNumeric t <;>
      simp [handleMessage, ht, hn]

/-- C2, amended, witness: "2" is accepted, "abc" is rejected. -/
theorem C2_amended_witness :
    handleMessage true (some sampleCount) (.text "2") =
      ⟨some { sampleCount with
              episodeCount := jsParseInt "2", currentEpisode := some 1,
              step := .episode_title }, none, some .startingEpisode1⟩ ∧
    handleMessage true (some sampleCount) (.text "abc") =
      ⟨some sampleCount, none, some .invalidEpisodeCount⟩ :=
  ⟨(C2_amended sampleCount true rfl).1 "2" (by decide) (by decide),
   (C2_amended sampleCount true rfl).2.1 "abc" (Or.inr (by decide))⟩

lemma specTableSucc_refl (a : Option Step) : specTableSucc a a = true := by
  rcases a with - | stp
  · rfl
  · cases stp <;> rfl

/-- The message handler on its own only moves `step` along the spec
table. -/
lemma handleMessage_specTable (ok : Bool) (s : Session) (m : Msg) :
    specTableSucc (some s.step)
      ((handleMessage ok (some s) m).session.map Session.step) = true := by
  obtain ⟨ty, stp, ti, th, sl, eps, ec, ce, cet⟩ := s
  cases m with
  | text t =>
    cases stp <;> simp only [handleMessage] <;>
      first
        | rfl
        | (split_ifs <;> rfl)
  | photo dl =>
    cases stp <;> cases dl <;> simp only [handleMessage] <;>
      first
        | rfl
        | (split_ifs <;> rfl)
  | other =>
    cases stp <;> simp only [handleMessage] <;> rfl

/-- C3, counterexample: pressing the `🎬 Add Movie` menu button while a
session sits at `movie_links` resets the session to a fresh one at
`title` — a transition `movie_links → title` the table of spec section
4.2 does not allow (its `movie_links` row either stays in state or ends
the session). -/
theorem C3_counterexample :
    (runEvents none movieMenuTrace).1.map Session.step = some .movie_links ∧
    (handleEvent true (runEvents none movieMenuTrace).1
        (.text "🎬 Add Movie")).1.map Session.step = some .title ∧
    specTableSucc (some .movie_links) (some .title) = false := by
  refine ⟨by decide, by decide, by decide⟩

/-- C3, amended: for every session and inbound event, the step either
moves along the transition table of spec section 4.2 or the event is one
of the two session-creating menu selections, which discard any current
session and restart at `title`; and every reachable session at
`movie_links`, `episode_count`, `episode_title` or `episode_link` has
passed through the `thumbnail` step (its thumbnail reference is set,
which only that step does). -/
theorem C3_amended :
    (∀ (ok : Bool) (st : Option Session) (m : Msg),
       specTableSucc (st.map Session.step)
           ((handleEvent ok st m).1.map Session.step) = true ∨
       (isMenuSelect m = true ∧
         (handleEvent ok st m).1.map Session.step = some .title)) ∧
    (∀ s : Session, Reach (some s) →
       (s.step = .movie_links ∨ s.step = .episode_count ∨ s.step = .episode_title ∨
         s.step = .episode_link) →
       s.thumbnail.isSome = true) := by
  constructor
  · intro ok st m
    rcases handleEvent_split ok st m with he | ⟨hm, he⟩ | ⟨hm, he⟩ | he <;> rw [he]
    · left; exact specTableSucc_refl _
    · right; exact ⟨hm, rfl⟩
    · right; exact ⟨hm, rfl⟩
    · rcases st with - | u
      · left; rfl
      · left; exact handleMessage_specTable ok u m
  · intro s hre hstep
    obtain ⟨hb1, hb2⟩ := reach_baseInv hre s rfl
    rcases hstep with h | h
    · exact (hb1 h).2
    · exact (hb2 h).2

/-- C3, amended, witness: a plain link text at `movie_links` follows the
table, and the reachable `movie_links` session has its thumbnail set. -/
theorem C3_amended_witness :
    (specTableSucc ((some sampleMovieLinks).map Session.step)
        ((handleEvent true (some sampleMovieLinks) (.text "http://b")).1.map
          Session.step) = true ∨
     (isMenuSelect (.text "http://b") = true ∧
       (handleEvent true (some sampleMovieLinks) (.text "http://b")).1.map
           Session.step = some .title)) ∧
    sampleMovieLinks.thumbnail.isSome = true :=
  ⟨C3_amended.1 true (some sampleMovieLinks) (.text "http://b"),
   C3_amended.2 sampleMovieLinks sampleMovieLinks_reach (Or.inl rfl)⟩

/-- C4, counterexample: when the insert fails at the movie persist point
the session is NOT deleted — it remains unchanged — refuting the claim
(and spec section 5) that a failed insert also deletes the session. -/
theorem C4_counterexample :
    (handleMessage false (some sampleMovieLinks) (.text "/done")).session
        = some sampleMovieLinks ∧
    (handleMessage false (some sampleMovieLinks) (.text "/done")).persisted = none ∧
    some sampleMovieLinks ≠ (none : Option Session) := by
  refine ⟨by decide, by decide, by decide⟩

/-- C4, amended: at a persist point a successful insert deletes the
session and a failed insert retains it — unchanged at `movie_links`; at
the final `episode_link` the session stays at the same step with the
just-collected episode already appended (the in-place push) — so the
collected record is kept for a retry rather than lost. -/
theorem C4_amended (s : Session) (t : String) (ht : t.isEmpty = false) :
    (s.step = .movie_links → s.streamingLinks ≠ [] →
      ((handleMessage true (some s) (.text "/done")).session = none ∧
       (handleMessage true (some s) (.text "/done")).persisted =
         some ⟨s.type, s.title, s.thumbnail, s.streamingLinks, []⟩) ∧
      ((handleMessage false (some s) (.text "/done")).session = some s ∧
       (handleMessage false (some s) (.text "/done")).persisted = none)) ∧
    (s.step = .episode_link → jsGeO s.currentEpisode s.episodeCount = true →
      ((handleMessage true (some s) (.text t)).session = none ∧
       (handleMessage true (some s) (.text t)).persisted =
         some ⟨s.type, s.title, s.thumbnail, [],
               s.episodes ++ [⟨s.currentEpisode, s.currentEpisodeTitle, t⟩]⟩) ∧
      ((handleMessage false (some s) (.text t)).session =
         some { s with
                episodes := s.episodes ++ [⟨s.currentEpisode, s.currentEpisodeTitle, t⟩] } ∧
       (handleMessage false (some s) (.text t)).persisted = none)) := by
  obtain ⟨ty, stp, ti, th, sl, eps, ec, ce, cet⟩ := s
  constructor
  · intro hstep hsl
    dsimp only at hstep
    subst hstep
    have hlen : ¬ sl.length = 0 := by simpa using hsl
    refine ⟨⟨?_, ?_⟩, ?_, ?_⟩ <;> simp [handleMessage, hlen]
  · intro hstep hge
    dsimp only at hstep hge
    subst hstep
    refine ⟨⟨?_, ?_⟩, ?_, ?_⟩ <;> simp [handleMessage, hge, ht]

/-- C4, amended, witness: the movie persist point with one link. -/
theorem C4_amended_witness :
    ((handleMessage true (some sampleMovieLinks) (.text "/done")).session = none ∧
     (handleMessage true (some sampleMovieLinks) (.text "/done")).persisted =
       some ⟨.movie, some "T", some "/thumbnails/a.jpg", ["http://a"], []⟩) ∧
    ((handleMessage false (some sampleMovieLinks) (.text "/done")).session
        = some sampleMovieLinks ∧
     (handleMessage false (some sampleMovieLinks) (.text "/done")).persisted = none) :=
  (C4_amended sampleMovieLinks "x" rfl).1 rfl (by decide)

/-- C5: every persisted movie record has a non-empty `streamingLinks`,
and the terminator at `movie_links` with zero collected links persists
nothing, leaves the session (step included) unchanged, and reprompts. -/
theorem C5 (s : Session) (ok : Bool) (m : Msg) :
    (∀ r : ContentRecord, Reach (some s) →
       (handleMessage ok (some s) m).persisted = some r →
       r.type = .movie → r.streamingLinks ≠ []) ∧
    (s.step = .movie_links → s.streamingLinks = [] →
       handleMessage ok (some s) (.text "/done") =
         ⟨some s, none, some .needOneLink⟩) := by
  constructor
  · intro r hre hp hty
    obtain ⟨-, t, -, hcase⟩ := persist_cases ok s m r hp
    rcases hcase with ⟨-, -, hsl, hrec⟩ | ⟨hstep, -, hrec⟩
    · rw [hrec]
      simpa using hsl
    · obtain ⟨-, hb2⟩ := reach_baseInv hre s rfl
      obtain ⟨hty2, -⟩ := hb2 (Or.inr (Or.inr hstep))
      rw [hrec] at hty
      dsimp only at hty
      rw [hty2] at hty
      cases hty
  · intro hstep hsl
    obtain ⟨ty, stp, ti, th, sl, eps, ec, ce, cet⟩ := s
    dsimp only at hstep hsl
    subst hstep
    subst hsl
    simp [handleMessage]

/-- C5, witness: the reachable one-link movie session persists a record
with a non-empty link list, and the zero-link session is reprompted. -/
theorem C5_witness :
    (⟨.movie, some "T", some "/thumbnails/a.jpg", ["http://a"], []⟩ :
        ContentRecord).streamingLinks ≠ [] ∧
    handleMessage true (some sampleMovieNoLinks) (.text "/done") =
      ⟨some sampleMovieNoLinks, none, some .needOneLink⟩ :=
  ⟨(C5 sampleMovieLinks true (.text "/done")).1 _ sampleMovieLinks_reach
      (by decide) rfl,
   (C5 sampleMovieNoLinks true (.text "/done")).2 rfl rfl⟩

/-- C6: a turn that persists a record (movie or series) always deletes
the sender's session — a subsequent lookup returns absent — and a
message reaching the conversation engine while no session exists is a
no-op (`if (!state) return;`): no session is created, nothing persists,
no reply is sent.  (The menu buttons, handled before the engine, are the
opt-in that creates sessions.) -/
theorem C6 (ok : Bool) (st : Option Session) (m : Msg) :
    (∀ r : ContentRecord, (handleEvent ok st m).2 = some r →
       (handleEvent ok st m).1 = none) ∧
    handleMessage ok none m = ⟨none, none, none⟩ := by
  constructor
  · intro r hp
    rcases handleEvent_split ok st m with he | ⟨-, he⟩ | ⟨-, he⟩ | he <;> rw [he] at hp ⊢
    · exact absurd hp (by simp)
    · exact absurd hp (by simp)
    · exact absurd hp (by simp)
    · exact persist_deletes ok st m r hp
  · rfl

/-- C6, witness: the successful movie persist deletes the session, and a
message with no session is a no-op. -/
theorem C6_witness :
    (handleEvent true (some sampleMovieLinks) (.text "/done")).1 = none ∧
    handleMessage true none (.text "hello") = ⟨none, none, none⟩ :=
  ⟨(C6 true (some sampleMovieLinks) (.text "/done")).1
      ⟨.movie, some "T", some "/thumbnails/a.jpg", ["http://a"], []⟩ (by decide),
   (C6 true none (.text "hello")).2⟩

/-- C7, counterexample: a photo sent in state `title` is silently
dropped — the handler's `if (message.text)` has no else branch, so the
session is unchanged and NO reply is sent — refuting "the engine replies
with a reprompt for the same step; no malformed turn is silently
dropped". -/
theorem C7_counterexample :
    handleMessage true (some freshMovieSession) (.photo (some "/thumbnails/x.jpg"))
      = ⟨some freshMovieSession, none, none⟩ := by decide

/-- C7, amended: malformed input is reprompted only at `thumbnail`,
`episode_count` and `episode_link`; at `title`, `movie_links` and
`episode_title` a non-text message is silently ignored (session
unchanged, no reply).  In every case the session is left unchanged. -/
theorem C7_amended (s : Session) (ok : Bool) (m : Msg) (hm : msgIsText m = false) :
    ((s.step = .title ∨ s.step = .movie_links ∨ s.step = .episode_title) →
       handleMessage ok (some s) m = ⟨some s, none, none⟩) ∧
    (s.step = .episode_count →
       handleMessage ok (some s) m = ⟨some s, none, some .invalidEpisodeCount⟩) ∧
    (s.step = .episode_link →
       handleMessage ok (some s) m = ⟨some s, none, some .invalidStreamingLink⟩) ∧
    (s.step = .thumbnail → m = .other →
       handleMessage ok (some s) m = ⟨some s, none, some .sendImagePlease⟩) ∧
    (s.step = .thumbnail → m = .photo none →
       handleMessage ok (some s) m = ⟨some s, none, some .thumbnailError⟩) := by
  obtain ⟨ty, stp, ti, th, sl, eps, ec, ce, cet⟩ := s
  cases m with
  | text t => cases hm
  | photo dl =>
    refine ⟨?_, ?_, ?_, ?_, ?_⟩ <;> intro h <;> dsimp only at h
    · rcases h with rfl | rfl | rfl <;> rfl
    · subst h; rfl
    · subst h; rfl
    · intro hc; cases hc
    · subst h
      intro hdl
      cases hdl
      rfl
  | other =>
    refine ⟨?_, ?_, ?_, ?_, ?_⟩ <;> intro h <;> dsimp only at h
    · rcases h with rfl | rfl | rfl <;> rfl
    · subst h; rfl
    · subst h; rfl
    · subst h; intro _; rfl
    · intro hc; cases hc

/-- C7, amended, witness: a non-text message is silent at `title` but
reprompted at `episode_count`. -/
theorem C7_amended_witness :
    handleMessage true (some freshSeriesSession) .other =
      ⟨some freshSeriesSession, none, none⟩ ∧
    handleMessage true (some sampleCount) .other =
      ⟨some sampleCount, none, some .invalidEpisodeCount⟩ :=
  ⟨(C7_amended freshSeriesSession true .other rfl).1 (Or.inl rfl),
   (C7_amended sampleCount true .other rfl).2.1 rfl⟩

/-- C8, counterexample: for a well-formed id that matches no document,
`findById` resolves `null` and the handler answers `res.json(null)` —
HTTP 200 with body `null`, neither a record nor an error body — so the
read does NOT produce a distinguished NotFound outcome. -/
theorem C8_counterexample :
    (getContentById .missing).status = 200 ∧
    (getContentById .missing).body = .jsonNull ∧
    bodyIsRecord (getContentById .missing).body = false ∧
    bodyIsError (getContentById .missing).body = false := by
  refine ⟨rfl, rfl, rfl, rfl⟩

/-- C8, amended: `GET /api/content/:id` returns 200 with the record when
the id matches, 200 with JSON `null` (not a NotFound outcome) when a
well-formed id matches nothing, and 500 with `{error: message}` when the
store call rejects (e.g. a malformed id). -/
theorem C8_amended :
    (∀ r : ContentRecord, getContentById (.found r) = ⟨200, .jsonRecord r⟩) ∧
    getContentById .missing = ⟨200, .jsonNull⟩ ∧
    (∀ e : String, getContentById (.failure e) = ⟨500, .errorBody e⟩) :=
  ⟨fun _ => rfl, rfl, fun _ => rfl⟩

/-- C9: a whitespace-only text at `episode_count` passes the numeric
guard (`Number(" ")` is 0, so `!isNaN` holds) but `parseInt(" ")` is
NaN: the session enters the episode loop with `episodeCount = NaN`, the
persist condition `currentEpisode >= episodeCount` is false from then
on, and over any subsequent message sequence nothing is ever persisted
and the session is never deleted. -/
theorem C9 (s : Session) (ok : Bool) (evs : List (Bool × Msg))
    (hs : s.step = .episode_count) :
    (handleMessage ok (some s) (.text " ")).session.map Session.step
        = some .episode_title ∧
    (handleMessage ok (some s) (.text " ")).session.map Session.episodeCount
        = some none ∧
    (handleMessage ok (some s) (.text " ")).session.map
        (fun u => jsGeO u.currentEpisode u.episodeCount) = some false ∧
    (runMsgs ((handleMessage ok (some s) (.text " ")).session) evs).2 = [] ∧
    (runMsgs ((handleMessage ok (some s) (.text " ")).session) evs).1 ≠ none := by
  obtain ⟨ty, stp, ti, th, sl, eps, ec, ce, cet⟩ := s
  dsimp only at hs
  subst hs
  have h1 : (handleMessage ok
      (some ⟨ty, .episode_count, ti, th, sl, eps, ec, ce, cet⟩) (.text " ")).session =
      some ⟨ty, .episode_title, ti, th, sl, eps, none, some 1, cet⟩ := by
    have hnum : (!(" " : String).isEmpty && jsNumeric " ") = true := by decide
    have hpi : jsParseInt " " = none := by decide
    simp [handleMessage, hnum, hpi]
  rw [h1]
  obtain ⟨hrec, s2, hs2, -⟩ :=
    runMsgs_stuck evs ⟨ty, .episode_title, ti, th, sl, eps, none, some 1, cet⟩
      ⟨rfl, Or.inl rfl⟩
  exact ⟨rfl, rfl, rfl, hrec, by rw [hs2]; exact Option.noConfusion⟩

/-- C9, witness: the concrete session fed " " then two more episode
turns. -/
theorem C9_witness :
    (handleMessage true (some sampleCount) (.text " ")).session.map Session.step
        = some .episode_title ∧
    (handleMessage true (some sampleCount) (.text " ")).session.map Session.episodeCount
        = some none ∧
    (handleMessage true (some sampleCount) (.text " ")).session.map
        (fun u => jsGeO u.currentEpisode u.episodeCount) = some false ∧
    (runMsgs ((handleMessage true (some sampleCount) (.text " ")).session)
        [(true, .text "E1"), (true, .text "L1"), (true, .text "E2")]).2 = [] ∧
    (runMsgs ((handleMessage true (some sampleCount) (.text " ")).session)
        [(true, .text "E1"), (true, .text "L1"), (true, .text "E2")]).1 ≠ none :=
  C9 sampleCount true [(true, .text "E1"), (true, .text "L1"), (true, .text "E2")] rfl

/-- C10: when the insert fails at the final `episode_link` step, the
just-collected episode stays appended in the session (the array was
pushed in place before the save), the step is unchanged, and a
subsequent text appends a second entry with the same `episodeNumber`, so
the retried (now successful) record carries `episodeCount + 1`
episodes. -/
theorem C10 (s : Session) (t u : String) (k : Int)
    (ht : t.isEmpty = false) (hu : u.isEmpty = false)
    (hs : s.step = .episode_link)
    (hk : s.episodeCount = some k)
    (hge : jsGeO s.currentEpisode s.episodeCount = true)
    (hlen : (s.episodes.length : Int) + 1 = k) :
    (handleMessage false (some s) (.text t)).persisted = none ∧
    (handleMessage false (some s) (.text t)).session =
      some { s with
             episodes := s.episodes ++ [⟨s.currentEpisode, s.currentEpisodeTitle, t⟩] } ∧
    (handleMessage true
        (some { s with
                episodes := s.episodes ++ [⟨s.currentEpisode, s.currentEpisodeTitle, t⟩] })
        (.text u)).persisted =
      some ⟨s.type, s.title, s.thumbnail, [],
            s.episodes ++ [(⟨s.currentEpisode, s.currentEpisodeTitle, t⟩ : Episode),
                           (⟨s.currentEpisode, s.currentEpisodeTitle, u⟩ : Episode)]⟩ ∧
    ((s.episodes ++ [(⟨s.currentEpisode, s.currentEpisodeTitle, t⟩ : Episode),
                     (⟨s.currentEpisode, s.currentEpisodeTitle, u⟩ : Episode)]).length : Int)
      = k + 1 ∧
    k < k + 1 := by
  obtain ⟨ty, stp, ti, th, sl, eps, ec, ce, cet⟩ := s
  dsimp only at hs hk hge hlen
  subst hs
  refine ⟨?_, ?_, ?_, ?_, by omega⟩
  · simp [handleMessage, hge, ht]
  · simp [handleMessage, hge, ht]
  · simp [handleMessage, hge, hu]
  · simp only [List.length_append, List.length_cons, List.length_nil]
    push_cast
    omega

/-- C10, witness: the one-episode series at its final link step. -/
theorem C10_witness :
    (handleMessage false (some sampleFinalLink) (.text "L1")).persisted = none ∧
    (handleMessage false (some sampleFinalLink) (.text "L1")).session =
      some { sampleFinalLink with
             episodes := sampleFinalLink.episodes ++
               [⟨sampleFinalLink.currentEpisode, sampleFinalLink.currentEpisodeTitle, "L1"⟩] } ∧
    (handleMessage true
        (some { sampleFinalLink with
                episodes := sampleFinalLink.episodes ++
                  [⟨sampleFinalLink.currentEpisode, sampleFinalLink.currentEpisodeTitle, "L1"⟩] })
        (.text "L1b")).persisted =
      some ⟨sampleFinalLink.type, sampleFinalLink.title, sampleFinalLink.thumbnail, [],
            sampleFinalLink.episodes ++
              [(⟨sampleFinalLink.currentEpisode, sampleFinalLink.currentEpisodeTitle,
                 "L1"⟩ : Episode),
               (⟨sampleFinalLink.currentEpisode, sampleFinalLink.currentEpisodeTitle,
                 "L1b"⟩ : Episode)]⟩ ∧
    ((sampleFinalLink.episodes ++
        [(⟨sampleFinalLink.currentEpisode, sampleFinalLink.currentEpisodeTitle,
           "L1"⟩ : Episode),
         (⟨sampleFinalLink.currentEpisode, sampleFinalLink.currentEpisodeTitle,
           "L1b"⟩ : Episode)]).length
      : Int) = 1 + 1 ∧
    (1 : Int) < 1 + 1 :=
  C10 sampleFinalLink "L1" "L1b" 1 rfl rfl rfl rfl (by decide) (by decide)

end SSBot
